import Mathlib

/-!
Verification of the SEO audit tool (seo_audit.py) against its specification.

The Python functions of `run_enhanced_seo_audit` are shallowly embedded as
Lean definitions: analyzers become pure functions on strings and lists,
`collections.Counter` becomes an insertion-ordered association list, the
network is an explicit `String → Option Sitemap` / `String → Except String
RawPage` environment, and Python `try/except` becomes a total function
returning a tagged record.
-/

namespace SeoAudit

/-! ### Basic string helpers modelling Python primitives -/

/-- ASCII alphabetic test, the character class a-zA-Z of the keyword regex:
code points 97-122 are a-z and 65-90 are A-Z. -/
def isAsciiAlpha (c : Char) : Bool :=
  (97 ≤ c.toNat && c.toNat ≤ 122) || (65 ≤ c.toNat && c.toNat ≤ 90)

/-- ASCII digit test: code points 48-57 are 0-9. -/
def isAsciiDigit (c : Char) : Bool :=
  48 ≤ c.toNat && c.toNat ≤ 57

/-- Model of Python str.isdigit restricted to ASCII: true iff the string is
nonempty and all characters are digits. -/
def pyIsDigit (s : String) : Bool :=
  (!s.data.isEmpty) && s.data.all isAsciiDigit

/-- Lower-casing character by character, modelling Python str.lower. -/
def pyLower (s : String) : String :=
  String.mk (s.data.map Char.toLower)

/-- Model of Python str.strip() with no argument: remove leading and
trailing whitespace. -/
def pyStrip (s : String) : String :=
  String.mk (((s.data.dropWhile Char.isWhitespace).reverse.dropWhile
    Char.isWhitespace).reverse)

/-- Worker for whitespace splitting; cur holds the reversed current word. -/
def splitWsAux (cur : List Char) : List Char → List String
  | [] => if cur.isEmpty then [] else [String.mk cur.reverse]
  | c :: cs =>
      if c.isWhitespace then
        if cur.isEmpty then splitWsAux [] cs
        else String.mk cur.reverse :: splitWsAux [] cs
      else splitWsAux (c :: cur) cs

/-- Model of Python str.split() with no argument: split on whitespace runs,
discarding empty pieces. -/
def pySplitWs (s : String) : List String :=
  splitWsAux [] s.data

/-- Worker for single-character splitting; cur holds the reversed current
piece. -/
def splitCharAux (sep : Char) (cur : List Char) : List Char → List String
  | [] => [String.mk cur.reverse]
  | c :: cs =>
      if c = sep then String.mk cur.reverse :: splitCharAux sep [] cs
      else splitCharAux sep (c :: cur) cs

/-- Model of Python str.split(sep) for a one-character separator: split at
every occurrence, keeping empty pieces, with a single empty piece for the
empty string. -/
def pySplitChar (sep : Char) (s : String) : List String :=
  splitCharAux sep [] s.data

/-- Whether the string starts with the given character. -/
def startsWithChar (c : Char) (s : String) : Bool :=
  match s.data with
  | [] => false
  | x :: _ => x = c

/-- Whether the string starts with two slashes. -/
def startsWithTwoSlashes (s : String) : Bool :=
  match s.data with
  | '/' :: '/' :: _ => true
  | _ => false

/-- Model of Python str.strip(c) for a single character c: remove all leading
and trailing occurrences of c. -/
def stripChar (c : Char) (s : String) : String :=
  String.mk (((s.data.dropWhile (fun x => x = c)).reverse.dropWhile (fun x => x = c)).reverse)

/-- Characters before the first occurrence of c (the whole list if c is absent). -/
def beforeChar (c : Char) : List Char → List Char
  | [] => []
  | x :: xs => if x = c then [] else x :: beforeChar c xs

/-- Characters after the first occurrence of c (empty if c is absent). -/
def afterChar (c : Char) : List Char → List Char
  | [] => []
  | x :: xs => if x = c then xs else afterChar c xs

/-- Characters following the first occurrence of the literal sequence
colon-slash-slash, or none when it does not occur. -/
def afterSchemeSep : List Char → Option (List Char)
  | ':' :: '/' :: '/' :: rest => some rest
  | _ :: rest => afterSchemeSep rest
  | [] => none

/-- Model of urllib.parse.urlparse restricted to the components
`analyze_url_structure` and `analyze_internal_links` use, for absolute URLs:
the fragment is everything after the first hash, the query everything after
the first question mark of what remains, the netloc the host part between
the scheme separator and the next slash, and the path the rest. -/
def pyUrlPath (url : String) : String :=
  let noFrag := beforeChar '#' url.data
  let noQuery := beforeChar '?' noFrag
  match afterSchemeSep noQuery with
  | some rest => String.mk (rest.dropWhile (fun c => c ≠ '/'))
  | none => String.mk noQuery

/-- Query component of the URL model: text between the first question mark
(before any fragment) and the fragment; empty when there is no question mark. -/
def pyUrlQuery (url : String) : String :=
  String.mk (afterChar '?' (beforeChar '#' url.data))

/-- Netloc (host) component of the URL model. -/
def pyNetloc (url : String) : String :=
  let noFrag := beforeChar '#' url.data
  let noQuery := beforeChar '?' noFrag
  match afterSchemeSep noQuery with
  | some rest => String.mk (rest.takeWhile (fun c => c ≠ '/'))
  | none => ""

/-! ### Counter model

`collections.Counter` keeps keys in insertion order; it is modelled as an
association list where adding to a present key updates it in place and
adding a fresh key appends it. -/

/-- One Counter update: all_keywords[kw] += c. -/
def counterAdd : List (String × Nat) → String → Nat → List (String × Nat)
  | [], kw, c => [(kw, c)]
  | q :: rest, kw, c =>
      if q.1 = kw then (q.1, q.2 + c) :: rest else q :: counterAdd rest kw c

/-- Left fold of Counter updates over a list of (keyword, count) pairs. -/
def counterFold (acc : List (String × Nat)) : List (String × Nat) → List (String × Nat)
  | [] => acc
  | p :: rest => counterFold (counterAdd acc p.1 p.2) rest

/-- The Counter built from a list of (keyword, count) pairs, processed left to
right starting from the empty Counter. -/
def counterOfList (l : List (String × Nat)) : List (String × Nat) :=
  counterFold [] l

/-- The Counter of a plain word list: each word contributes count 1. -/
def counterOfWords (ws : List String) : List (String × Nat) :=
  counterOfList (ws.map (fun w => (w, 1)))

/-- Total contribution of key k in a list of (keyword, count) pairs. -/
def contrib (k : String) : List (String × Nat) → Nat
  | [] => 0
  | p :: rest => (if p.1 = k then p.2 else 0) + contrib k rest

/-- Keys of a pair list in first-encounter order, skipping keys already seen. -/
def firstKeys (seen : List String) : List (String × Nat) → List String
  | [] => []
  | p :: rest =>
      if p.1 ∈ seen then firstKeys seen rest
      else p.1 :: firstKeys (p.1 :: seen) rest

/-- Stable descending insertion by count, modelling the stability of Python
sorted with reverse=True as used by Counter.most_common. -/
def insertDesc (p : String × Nat) : List (String × Nat) → List (String × Nat)
  | [] => [p]
  | q :: rest => if q.2 < p.2 then p :: q :: rest else q :: insertDesc p rest

/-- Stable sort of a Counter's items by descending count. -/
def sortDesc (l : List (String × Nat)) : List (String × Nat) :=
  l.foldl (fun acc p => insertDesc p acc) []

/-- Model of Counter.most_common(n): items sorted by descending count
(ties in insertion order), truncated to n. -/
def mostCommon (n : Nat) (counter : List (String × Nat)) : List (String × Nat) :=
  (sortDesc counter).take n

/-! ### Keyword Extractor (get_keywords) -/

/-- Word character in the sense of the regex word boundary: ASCII letter,
digit or underscore. -/
def isWordChar (c : Char) : Bool :=
  isAsciiAlpha c || isAsciiDigit c || c = '_'

/-- Maximal runs of word characters of a character list, accumulator style:
cur holds the reversed current run. -/
def wordRunsAux (cur : List Char) : List Char → List (List Char)
  | [] => if cur.isEmpty then [] else [cur.reverse]
  | c :: cs =>
      if isWordChar c then wordRunsAux (c :: cur) cs
      else if cur.isEmpty then wordRunsAux [] cs
      else cur.reverse :: wordRunsAux [] cs

/-- Maximal runs of word characters of a string. -/
def wordRuns (s : String) : List (List Char) :=
  wordRunsAux [] s.data

/-- Tokens matched by the regex: a maximal word-character run matches exactly
when it consists only of ASCII letters and its length lies in the bounds
(shorter all-letter prefixes of a longer run have no word boundary after
them, so only whole runs can match). -/
def regexTokens (text : String) (min_length max_length : Nat) : List String :=
  ((wordRuns text).filter
      (fun r => r.all isAsciiAlpha && min_length ≤ r.length && r.length ≤ max_length)).map
    String.mk

/-- The fixed stop-word set of get_keywords. -/
def stop_words : List String :=
  ["this", "that", "with", "have", "will", "from", "they", "know", "want",
   "been", "good", "much", "some", "time", "very", "when", "come", "here",
   "just", "like", "long", "make", "many", "over", "such", "take", "than",
   "them", "well", "were", "what", "your", "page", "website", "site"]

/-- Model of get_keywords: lower-case the text, extract regex tokens within
the length bounds, drop stop words and purely numeric tokens, and count the
remaining words with a Counter. -/
def get_keywords (text : String) (min_length : Nat := 4) (max_length : Nat := 20) :
    List (String × Nat) :=
  counterOfWords
    ((regexTokens (pyLower text) min_length max_length).filter
      (fun w => w ∉ stop_words && !pyIsDigit w))

/-- The same extractor with the not word.isdigit() conjunct of the filter
removed, used to state that the digit filter is vacuous. -/
def get_keywords_without_digit_filter (text : String) (min_length : Nat := 4)
    (max_length : Nat := 20) : List (String × Nat) :=
  counterOfWords
    ((regexTokens (pyLower text) min_length max_length).filter
      (fun w => w ∉ stop_words))

/-! ### Title/Meta Analyzer (analyze_title_meta) -/

structure TitleMetaResult where
  title_length : Nat
  meta_desc_length : Nat
  issues : List String
  recommendations : List String
deriving Repr, DecidableEq

/-- Number of distinct strings of a list, first occurrences counted once,
modelling len(set(words)). -/
def countDistinctAux (seen : List String) : List String → Nat
  | [] => 0
  | w :: rest =>
      if w ∈ seen then countDistinctAux seen rest
      else 1 + countDistinctAux (w :: seen) rest

/-- Duplicate-word check: title.lower().split() has fewer distinct words
than words. -/
def hasDuplicateWords (title : String) : Bool :=
  let ws := pySplitWs (pyLower title)
  ws.length ≠ countDistinctAux [] ws

/-- Model of analyze_title_meta. The title is missing when falsy (empty) or
the sentinel; lengths use code-point counts as Python len does. The url
argument is unused, as in the source. -/
def analyze_title_meta (title meta_desc _url : String) : TitleMetaResult :=
  let titleMissing := title = "" ∨ title = "N/A"
  let titleIssues :=
    if titleMissing then ["Missing title tag"]
    else
      (if title.length < 30 then ["Title too short"]
       else if title.length > 60 then ["Title too long"]
       else [])
      ++ (if hasDuplicateWords title then ["Duplicate words in title"] else [])
  let titleRecs :=
    if titleMissing then []
    else if title.length < 30 then ["Expand title to 50-60 characters"]
    else if title.length > 60 then ["Shorten title to under 60 characters"]
    else []
  let metaMissing := meta_desc = "" ∨ meta_desc = "N/A"
  let metaIssues :=
    if metaMissing then ["Missing meta description"]
    else if meta_desc.length < 120 then ["Meta description too short"]
    else if meta_desc.length > 160 then ["Meta description too long"]
    else []
  let metaRecs :=
    if metaMissing then []
    else if meta_desc.length < 120 then ["Expand meta description to 150-160 characters"]
    else if meta_desc.length > 160 then ["Shorten meta description to under 160 characters"]
    else []
  { title_length := if title ≠ "N/A" then title.length else 0
    meta_desc_length := if meta_desc ≠ "N/A" then meta_desc.length else 0
    issues := titleIssues ++ metaIssues
    recommendations := titleRecs ++ metaRecs }

/-! ### Header Analyzer (analyze_headers) -/

structure HeaderResult where
  h1_count : Nat
  h2_count : Nat
  h3_count : Nat
  issues : List String
  recommendations : List String
deriving Repr, DecidableEq

/-- Model of analyze_headers. -/
def analyze_headers (h1_tags h2_tags h3_tags : List String) : HeaderResult :=
  let h1Issues :=
    if h1_tags.isEmpty then ["Missing H1 tag"]
    else if h1_tags.length > 1 then ["Multiple H1 tags"]
    else []
  let h1Recs :=
    if h1_tags.isEmpty then []
    else if h1_tags.length > 1 then ["Use only one H1 tag per page"]
    else []
  let total_headers := h1_tags.length + h2_tags.length + h3_tags.length
  let hierIssues := if total_headers = 0 then ["No header tags found"] else []
  let hierRecs :=
    if total_headers = 0 then []
    else if total_headers < 3 then ["Add more header tags for better content structure"]
    else []
  { h1_count := h1_tags.length
    h2_count := h2_tags.length
    h3_count := h3_tags.length
    issues := h1Issues ++ hierIssues
    recommendations := h1Recs ++ hierRecs }

/-! ### URL Structure Analyzer (analyze_url_structure) -/

structure UrlResult where
  depth : Nat
  length : Nat
  issues : List String
  recommendations : List String
  score : String
deriving Repr, DecidableEq

/-- Model of analyze_url_structure. Depth counts the pieces of
path.strip(slash).split(slash) when the stripped path is nonempty, which
keeps empty pieces produced by consecutive interior slashes. -/
def analyze_url_structure (url : String) : UrlResult :=
  let path := pyUrlPath url
  let stripped := stripChar '/' path
  let depth := if stripped ≠ "" then (pySplitChar '/' stripped).length else 0
  let depthIssues := if depth > 4 then ["URL too deep"] else []
  let depthRecs := if depth > 4 then ["Reduce URL depth to 3 levels or less"] else []
  let underscoreIssues := if '_' ∈ path.data then ["Contains underscores"] else []
  let underscoreRecs := if '_' ∈ path.data then ["Replace underscores with hyphens"] else []
  let alphaIssues := if !path.data.any isAsciiAlpha then ["No descriptive text in URL"] else []
  let alphaRecs := if !path.data.any isAsciiAlpha then ["Add descriptive keywords to URL"] else []
  let lengthIssues := if url.length > 100 then ["URL too long"] else []
  let lengthRecs := if url.length > 100 then ["Shorten URL to under 100 characters"] else []
  let queryIssues := if pyUrlQuery url ≠ "" then ["Contains URL parameters"] else []
  let issues := depthIssues ++ underscoreIssues ++ alphaIssues ++ lengthIssues ++ queryIssues
  { depth := depth
    length := url.length
    issues := issues
    recommendations := depthRecs ++ underscoreRecs ++ alphaRecs ++ lengthRecs
    score := if issues.isEmpty then "Good" else "Needs Improvement" }

/-! ### Content Quality Analyzer (analyze_content_quality) -/

structure ContentResult where
  word_count : Nat
  readability_score : String
  issues : List String
  recommendations : List String
deriving Repr, DecidableEq

/-- Sentence separator characters of the readability split. -/
def isSentenceSep (c : Char) : Bool :=
  c = '.' || c = '!' || c = '?'

/-- Model of re.split on one-or-more sentence separators: pieces between
maximal separator runs, with an empty piece before a leading run and after a
trailing run, and a single empty piece for the empty input. -/
def reSplitSentences : List Char → List (List Char)
  | [] => [[]]
  | c :: cs =>
      if isSentenceSep c then
        match cs with
        | [] => [[], []]
        | c2 :: cs2 =>
            if isSentenceSep c2 then reSplitSentences (c2 :: cs2)
            else [] :: reSplitSentences (c2 :: cs2)
      else
        match reSplitSentences cs with
        | [] => [[c]]
        | s :: ss => (c :: s) :: ss

/-- Sentence count used by the readability check. -/
def sentenceCount (text : String) : Nat :=
  (reSplitSentences text.data).length

/-- Maximum of the Counter values, modelling max over dict values. -/
def maxCounterValue (kd : List (String × Nat)) : Nat :=
  (kd.map Prod.snd).foldr max 0

/-- Model of analyze_content_quality. Python compares the top keyword share
max/word_count*100 > 3 and word_count/sentences > 20 with float division;
both are modelled by the exact integer inequalities 100*max > 3*word_count
and word_count > 20*sentences. -/
def analyze_content_quality (word_count : Nat) (keyword_density : List (String × Nat))
    (text_content : String) : ContentResult :=
  let lengthIssues := if word_count < 300 then ["Content too short"] else []
  let lengthRecs :=
    if word_count < 300 then ["Expand content to at least 300 words"]
    else if word_count > 3000 then ["Consider breaking long content into multiple pages"]
    else []
  let overOpt :=
    keyword_density ≠ [] ∧ 100 * maxCounterValue keyword_density > 3 * word_count
  let densityIssues := if overOpt then ["Keyword over-optimization"] else []
  let densityRecs := if overOpt then ["Reduce keyword density to 2-3%"] else []
  let sentences := sentenceCount text_content
  let readabilityRecs :=
    if sentences > 0 ∧ word_count > 20 * sentences then
      ["Consider shorter sentences for better readability"]
    else []
  { word_count := word_count
    readability_score := if word_count ≥ 300 then "Good" else "Poor"
    issues := lengthIssues ++ densityIssues
    recommendations := lengthRecs ++ densityRecs ++ readabilityRecs }

/-! ### Score Calculator (calculate_seo_score) -/

/-- Model of calculate_seo_score: weighted deductions from 100, a capped
image deduction, a conditional internal-link bonus, then a clamp to 0..100.
Python integers are unbounded, so the working value is an Int. -/
def calculate_seo_score (title_meta : TitleMetaResult) (header : HeaderResult)
    (url : UrlResult) (content : ContentResult) (internal_links : Nat)
    (images_without_alt : Nat) : Int :=
  let score : Int :=
    100 - 10 * title_meta.issues.length - 10 * header.issues.length
      - 5 * url.issues.length - 10 * content.issues.length
      - min (images_without_alt * 2) 20
  let score := if internal_links ≥ 3 then score + 5 else score
  max 0 (min 100 score)

/-! ### Sitemap URL discovery (extract_all_page_urls)

The network is an explicit environment mapping a sitemap URL to the parsed
document it serves; a failed fetch, a non-XML response or malformed XML all
make the Python code contribute nothing and are modelled as none. Recursion
over nested sitemap indexes is fuelled, the code itself having no cycle
guard; exhausted fuel contributes nothing, like any other failure. -/

inductive SitemapDoc where
  /-- A sitemap index: the loc texts of its nested sitemap entries. -/
  | index (children : List String)
  /-- A regular sitemap: its url loc texts. -/
  | urlset (locs : List String)

/-- Model of extract_all_page_urls: a regular sitemap yields its locs, an
index concatenates the recursive results child by child, and every level
truncates its own result to max_pages before returning. -/
def extract_all_page_urls (web : String → Option SitemapDoc) (max_pages : Nat) :
    Nat → String → List String
  | 0, _ => []
  | fuel + 1, sitemap_url =>
      match web sitemap_url with
      | none => []
      | some (SitemapDoc.urlset locs) => locs.take max_pages
      | some (SitemapDoc.index children) =>
          (children.foldr
              (fun c acc => extract_all_page_urls web max_pages fuel c ++ acc) []).take
            max_pages

/-! ### Page Auditor (get_seo_data)

Fetching and HTML parsing are external collaborators; their outcome is an
explicit String to Except map, producing either the raw fields the soup
queries of get_seo_data extract, or the message of the caught exception. -/

/-- One anchor element with href attribute: href, text, and title attribute
(empty when absent, as a.get with default). -/
structure Anchor where
  href : String
  text : String
  titleAttr : String
deriving Repr, DecidableEq

/-- Raw fields extracted from the parsed page, mirroring the soup queries of
lines 286-316: optional tags are none when the element or attribute is
absent, imageAlts has one entry per img element, pageText is
soup.get_text, and breadcrumbs is the result of extract_breadcrumbs (a
selector walk over the parsed document, abstracted with it). -/
structure RawPage where
  titleText : Option String
  metaDescription : Option String
  metaKeywords : Option String
  robots : Option String
  h1Tags : List String
  h2Tags : List String
  h3Tags : List String
  imageAlts : List (Option String)
  pageText : String
  anchors : List Anchor
  breadcrumbs : List String
deriving Repr

/-- Model of urllib.parse.urljoin for the cases the audit meets: an absolute
href is kept, a scheme-relative href inherits the base scheme, a
root-relative href replaces the base path, and any other href replaces the
last segment of the base path. -/
def urljoin (base href : String) : String :=
  if href = "" then base
  else if (afterSchemeSep href.data).isSome then href
  else
    let scheme := String.mk (base.data.takeWhile (fun c => c ≠ ':'))
    if startsWithTwoSlashes href then scheme ++ ":" ++ href
    else if startsWithChar '/' href then scheme ++ "://" ++ pyNetloc base ++ href
    else
      let basePath := pyUrlPath base
      let dir := String.mk ((basePath.data.reverse.dropWhile (fun c => c ≠ '/')).reverse)
      scheme ++ "://" ++ pyNetloc base ++ dir ++ href

/-- Model of analyze_internal_links: skip empty and fragment-only hrefs,
resolve against the base, and classify by comparing netlocs; internal links
keep the title attribute, external links keep url and anchor text. -/
def analyze_internal_links (base_url : String) :
    List Anchor → List Anchor × List (String × String)
  | [] => ([], [])
  | a :: rest =>
      let (ins, outs) := analyze_internal_links base_url rest
      let href := pyStrip a.href
      if href = "" ∨ startsWithChar '#' href then (ins, outs)
      else
        let full_url := urljoin base_url href
        if pyNetloc full_url = pyNetloc base_url then
          ({ href := full_url, text := a.text, titleAttr := a.titleAttr } :: ins, outs)
        else (ins, (full_url, a.text) :: outs)

/-- All analysis fields of a successfully audited page, one per key of the
dict returned by get_seo_data. -/
structure PageOk where
  url : String
  title : String
  titleLength : Nat
  metaDescription : String
  metaDescriptionLength : Nat
  metaKeywords : String
  h1Tags : List String
  h2Tags : List String
  h3Tags : List String
  h1Count : Nat
  h2Count : Nat
  h3Count : Nat
  imagesTotal : Nat
  imagesWithoutAlt : Nat
  altTexts : List String
  breadcrumbs : List String
  internalLinks : List Anchor
  externalLinks : List (String × String)
  internalLinksCount : Nat
  externalLinksCount : Nat
  wordCount : Nat
  keywordDensity : List (String × Nat)
  topKeywords : List (String × Nat)
  robots : String
  urlDepth : Nat
  urlLength : Nat
  titleMetaIssues : List String
  headerIssues : List String
  urlIssues : List String
  contentIssues : List String
  recommendations : List String
  overallScore : Int
deriving Repr

/-- One audited page: either the full analysis record, or — when the fetch,
transport or parse step raised — a record carrying only the URL and the
error string. -/
inductive PageRecord where
  | ok (data : PageOk)
  | error (url : String) (msg : String)
deriving Repr

/-- Whether a record is the Error-tagged variant. -/
def PageRecord.isError : PageRecord → Bool
  | PageRecord.ok _ => false
  | PageRecord.error _ _ => true

/-- The analysis fields of a record, none for the Error-tagged variant. -/
def PageRecord.okData : PageRecord → Option PageOk
  | PageRecord.ok d => some d
  | PageRecord.error _ _ => none

/-- Model of get_seo_data. The fetch-and-parse collaborator either yields
the raw page or the message of the exception it raised; the surrounding
try/except of the source makes the function total: the except branch returns
the URL-and-Error record and nothing propagates. -/
def get_seo_data (fetchParse : String → Except String RawPage) (url : String) :
    PageRecord :=
  match fetchParse url with
  | Except.error e => PageRecord.error url e
  | Except.ok soup =>
      let title := match soup.titleText with
        | some t => pyStrip t
        | none => "N/A"
      let meta_description := match soup.metaDescription with
        | some c => pyStrip c
        | none => "N/A"
      let meta_keywords := match soup.metaKeywords with
        | some c => pyStrip c
        | none => "N/A"
      let robots_content := match soup.robots with
        | some c => pyLower (pyStrip c)
        | none => "index,follow"
      let alt_texts :=
        (soup.imageAlts.filterMap id).filterMap
          (fun s => if s ≠ "" then some (pyStrip s) else none)
      let images_without_alt :=
        (soup.imageAlts.filter (fun o => o.getD "" = "")).length
      let page_text := soup.pageText
      let word_count := (pySplitWs page_text).length
      let keyword_density := get_keywords page_text
      let links := analyze_internal_links url soup.anchors
      let title_meta_analysis := analyze_title_meta title meta_description url
      let header_analysis := analyze_headers soup.h1Tags soup.h2Tags soup.h3Tags
      let url_analysis := analyze_url_structure url
      let content_analysis := analyze_content_quality word_count keyword_density page_text
      PageRecord.ok
        { url := url
          title := title
          titleLength := title_meta_analysis.title_length
          metaDescription := meta_description
          metaDescriptionLength := title_meta_analysis.meta_desc_length
          metaKeywords := meta_keywords
          h1Tags := soup.h1Tags
          h2Tags := soup.h2Tags
          h3Tags := soup.h3Tags
          h1Count := header_analysis.h1_count
          h2Count := header_analysis.h2_count
          h3Count := header_analysis.h3_count
          imagesTotal := soup.imageAlts.length
          imagesWithoutAlt := images_without_alt
          altTexts := alt_texts
          breadcrumbs := soup.breadcrumbs
          internalLinks := links.1
          externalLinks := links.2
          internalLinksCount := links.1.length
          externalLinksCount := links.2.length
          wordCount := word_count
          keywordDensity := keyword_density
          topKeywords := mostCommon 10 keyword_density
          robots := robots_content
          urlDepth := url_analysis.depth
          urlLength := url_analysis.length
          titleMetaIssues := title_meta_analysis.issues
          headerIssues := header_analysis.issues
          urlIssues := url_analysis.issues
          contentIssues := content_analysis.issues
          recommendations := title_meta_analysis.recommendations
            ++ header_analysis.recommendations
            ++ url_analysis.recommendations
            ++ content_analysis.recommendations
          overallScore := calculate_seo_score title_meta_analysis header_analysis
            url_analysis content_analysis links.1.length images_without_alt }

/-! ### Report Aggregator (generate_comprehensive_report) -/

/-- Concatenation of a list of lists, page by page in order. -/
def concatAll : List (List α) → List α
  | [] => []
  | l :: ls => l ++ concatAll ls

/-- The global keyword Counter: every valid page's top-keyword pairs added in
page order. -/
def all_keywords (pages : List (List (String × Nat))) : List (String × Nat) :=
  counterOfList (concatAll pages)

/-- The keyword-opportunity list: keys of the global Counter whose count is
exactly 1, in Counter order, truncated to 10. -/
def keyword_opportunities (pages : List (List (String × Nat))) : List String :=
  (((all_keywords pages).filter (fun p => p.2 == 1)).map Prod.fst).take 10

/-- Summary block of the report; means are exact rationals standing for the
float means of the source. -/
structure ReportSummary where
  total_pages : Nat
  average_score : ℚ
  pages_with_issues : Nat
  average_word_count : ℚ
  pages_missing_meta_desc : Nat
  pages_missing_h1 : Nat
deriving Repr, DecidableEq

/-- Keyword-analysis block of the report. -/
structure KeywordAnalysis where
  top_keywords : List (String × Nat)
  total_unique_keywords : Nat
  keyword_opportunities : List String
deriving Repr, DecidableEq

/-- The comprehensive report; the empty dicts of the initial report value are
the none cases of the two blocks. -/
structure Report where
  summary : Option ReportSummary
  common_issues : List (String × Nat)
  keyword_analysis : Option KeywordAnalysis
  recommendations : List String
deriving Repr, DecidableEq

/-- The report as initialised, before any page data is filled in. -/
def emptyReport : Report :=
  { summary := none
    common_issues := []
    keyword_analysis := none
    recommendations := [] }

/-- Model of generate_comprehensive_report: an empty frame or an all-error
frame returns the initial report unchanged; otherwise every aggregate is
computed from the valid records only, with the issue tally running column by
column over the four issue categories. -/
def generate_comprehensive_report (records : List PageRecord) : Report :=
  if records.isEmpty then emptyReport
  else
    let valid := records.filterMap PageRecord.okData
    if valid.isEmpty then emptyReport
    else
      let all_issues :=
        valid.foldr (fun p acc => p.titleMetaIssues ++ acc) []
          ++ valid.foldr (fun p acc => p.headerIssues ++ acc) []
          ++ valid.foldr (fun p acc => p.urlIssues ++ acc) []
          ++ valid.foldr (fun p acc => p.contentIssues ++ acc) []
      let keywords := all_keywords (valid.map PageOk.topKeywords)
      { summary := some
          { total_pages := valid.length
            average_score := ((valid.map PageOk.overallScore).sum : ℚ) / valid.length
            pages_with_issues := (valid.filter (fun p => !p.titleMetaIssues.isEmpty)).length
            average_word_count := (((valid.map PageOk.wordCount).sum : Nat) : ℚ) / valid.length
            pages_missing_meta_desc := (valid.filter (fun p => p.metaDescription = "N/A")).length
            pages_missing_h1 := (valid.filter (fun p => p.h1Count = 0)).length }
        common_issues := mostCommon 10 (counterOfWords all_issues)
        keyword_analysis := some
          { top_keywords := mostCommon 20 keywords
            total_unique_keywords := keywords.length
            keyword_opportunities := keyword_opportunities (valid.map PageOk.topKeywords) }
        recommendations := [] }

/-! ### Specification-side definitions, for the claims that compare the code
against an independently stated property -/

/-- Number of non-empty path segments after stripping leading and trailing
slashes, the depth notion the specification states. -/
def specNonEmptyDepth (url : String) : Nat :=
  ((pySplitChar '/' (stripChar '/' (pyUrlPath url))).filter (fun seg => seg ≠ "")).length

/-- Summed count of a keyword over all pages' top-keyword lists, as the
specification words it. -/
def specTotalCount (pages : List (List (String × Nat))) (kw : String) : Nat :=
  (pages.map (fun pg => contrib kw pg)).sum

/-- The keyword-opportunity list as the specification words it: keywords
whose summed count over all pages equals 1, in first-encounter order, capped
at 10. -/
def specOpportunities (pages : List (List (String × Nat))) : List String :=
  ((firstKeys [] (concatAll pages)).filter
      (fun kw => specTotalCount pages kw == 1)).take 10

/-! ### Helper lemmas -/

theorem reSplitSentences_ne_nil : ∀ l : List Char, reSplitSentences l ≠ [] := by
  intro l
  induction l with
  | nil => simp [reSplitSentences]
  | cons c cs ih =>
    by_cases h : isSentenceSep c
    · cases cs with
      | nil => simp [reSplitSentences, h]
      | cons c2 cs2 =>
        by_cases h2 : isSentenceSep c2
        · simpa [reSplitSentences, h, h2] using ih
        · simp [reSplitSentences, h, h2]
    · rw [reSplitSentences.eq_def]
      simp only [h, Bool.false_eq_true, if_false]
      cases hrec : reSplitSentences cs <;> simp

theorem pageRecord_allError_filterMap {records : List PageRecord}
    (h : ∀ r ∈ records, r.isError = true) :
    records.filterMap PageRecord.okData = [] := by
  induction records with
  | nil => rfl
  | cons r rest ih =>
    have hr := h r (List.mem_cons_self r rest)
    cases r with
    | ok d => simp [PageRecord.isError] at hr
    | error u m =>
      simp only [List.filterMap_cons, PageRecord.okData]
      exact ih (fun r hrm => h r (List.mem_cons_of_mem _ hrm))

/-! ### Claim theorems -/

/-- C1: `calculate_seo_score` returns exactly 100 minus 10 per title/meta
issue, 10 per header issue, 5 per URL issue, 10 per content issue, minus
min(2 x images-without-alt, 20), plus 5 when the internal-link count is at
least 3, clamped to the interval 0..100; in particular the result is always
between 0 and 100. -/
theorem calculate_seo_score_formula_and_bounds (tm : TitleMetaResult)
    (hd : HeaderResult) (ua : UrlResult) (ca : ContentResult)
    (internal_links images_without_alt : Nat) :
    calculate_seo_score tm hd ua ca internal_links images_without_alt
      = max 0 (min 100
          ((100 : Int) - 10 * tm.issues.length - 10 * hd.issues.length
            - 5 * ua.issues.length - 10 * ca.issues.length
            - min (2 * (images_without_alt : Int)) 20
            + (if 3 ≤ internal_links then 5 else 0)))
    ∧ 0 ≤ calculate_seo_score tm hd ua ca internal_links images_without_alt
    ∧ calculate_seo_score tm hd ua ca internal_links images_without_alt ≤ 100 := by
  unfold calculate_seo_score
  dsimp only
  have hmin : ((min (images_without_alt * 2) 20 : Nat) : Int)
      = min (2 * (images_without_alt : Int)) 20 := by
    push_cast
    omega
  rw [hmin]
  refine ⟨?_, ?_, ?_⟩ <;> split <;> omega

/-- C9: splitting any text on runs of the sentence separators yields at
least one segment, so the sentence count used by `analyze_content_quality`
is always positive and the `sentences > 0` guard before the
average-words-per-sentence division never fails. -/
theorem sentenceCount_pos (text : String) : 0 < sentenceCount text := by
  unfold sentenceCount
  exact List.length_pos.mpr (reSplitSentences_ne_nil text.data)

/-- C7: whenever the fetch-transport-parse step of `get_seo_data` fails, the
returned record is exactly the Error-tagged record carrying the URL and the
error string and nothing else; the function is total, so no exception
reaches the caller. -/
theorem get_seo_data_error_record (fetchParse : String → Except String RawPage)
    (url e : String) (h : fetchParse url = Except.error e) :
    get_seo_data fetchParse url = PageRecord.error url e := by
  unfold get_seo_data
  rw [h]

theorem get_seo_data_error_record_witness :
    get_seo_data (fun _ => Except.error "timeout") "https://example.com"
      = PageRecord.error "https://example.com" "timeout" :=
  get_seo_data_error_record (fun _ => Except.error "timeout") "https://example.com"
    "timeout" rfl

/-- C8: when every record of the input collection is Error-tagged (in
particular when the collection is empty), `generate_comprehensive_report`
returns the initial report with empty summary, empty common-issues list and
empty keyword analysis, and raises nothing. -/
theorem generate_comprehensive_report_all_errors (records : List PageRecord)
    (h : ∀ r ∈ records, r.isError = true) :
    generate_comprehensive_report records = emptyReport := by
  unfold generate_comprehensive_report
  cases records with
  | nil => simp
  | cons r rest =>
    rw [pageRecord_allError_filterMap h]
    simp

theorem generate_comprehensive_report_all_errors_witness :
    generate_comprehensive_report
        [PageRecord.error "https://example.com" "boom",
         PageRecord.error "https://example.com/a" "bad gateway"]
      = emptyReport :=
  generate_comprehensive_report_all_errors _ (by
    intro r hr
    simp only [List.mem_cons, List.not_mem_nil, or_false] at hr
    rcases hr with h | h <;> subst h <;> rfl)

/-- C4: on a sitemap index with two child sitemaps of three URLs each and a
page cap of four, URL discovery returns exactly four URLs, the three of the
first child followed by the first of the second: the concatenation in
first-sitemap-first order truncated to the cap, truncation happening inside
each recursive call and once more at the top level. -/
theorem extract_all_page_urls_two_children
    (web : String → Option SitemapDoc) (root s1 s2 : String)
    (u1 u2 : List String) (fuel : Nat)
    (hroot : web root = some (SitemapDoc.index [s1, s2]))
    (h1 : web s1 = some (SitemapDoc.urlset u1))
    (h2 : web s2 = some (SitemapDoc.urlset u2))
    (hl1 : u1.length = 3) (_hl2 : u2.length = 3) :
    extract_all_page_urls web 4 (fuel + 2) root = u1 ++ u2.take 1 := by
  have hc1 : extract_all_page_urls web 4 (fuel + 1) s1 = u1.take 4 := by
    rw [extract_all_page_urls, h1]
  have hc2 : extract_all_page_urls web 4 (fuel + 1) s2 = u2.take 4 := by
    rw [extract_all_page_urls, h2]
  have ht1 : u1.take 4 = u1 := List.take_of_length_le (by omega)
  rw [show fuel + 2 = (fuel + 1) + 1 from rfl, extract_all_page_urls, hroot]
  simp only [List.foldr_cons, List.foldr_nil, hc1, hc2, List.append_nil, ht1]
  rw [List.take_append_eq_append_take, ht1, hl1, List.take_take]
  norm_num

theorem extract_all_page_urls_two_children_witness :
    extract_all_page_urls
        (fun u =>
          if u = "https://ex.com/sitemap.xml" then
            some (SitemapDoc.index ["https://ex.com/s1.xml", "https://ex.com/s2.xml"])
          else if u = "https://ex.com/s1.xml" then
            some (SitemapDoc.urlset ["https://ex.com/a1", "https://ex.com/a2", "https://ex.com/a3"])
          else if u = "https://ex.com/s2.xml" then
            some (SitemapDoc.urlset ["https://ex.com/b1", "https://ex.com/b2", "https://ex.com/b3"])
          else none)
        4 2 "https://ex.com/sitemap.xml"
      = ["https://ex.com/a1", "https://ex.com/a2", "https://ex.com/a3", "https://ex.com/b1"] :=
  extract_all_page_urls_two_children _ "https://ex.com/sitemap.xml"
    "https://ex.com/s1.xml" "https://ex.com/s2.xml"
    ["https://ex.com/a1", "https://ex.com/a2", "https://ex.com/a3"]
    ["https://ex.com/b1", "https://ex.com/b2", "https://ex.com/b3"]
    0 rfl rfl rfl rfl rfl

/-- C3: for a present title, `analyze_title_meta` reports "Title too short"
exactly when the title length is strictly below 30 and "Title too long"
exactly when it is strictly above 60; lengths 30 and 60 therefore trigger
neither issue. -/
theorem analyze_title_meta_length_boundaries (title meta_desc url : String)
    (h1 : title ≠ "") (h2 : title ≠ "N/A") :
    ("Title too short" ∈ (analyze_title_meta title meta_desc url).issues
        ↔ title.length < 30)
    ∧ ("Title too long" ∈ (analyze_title_meta title meta_desc url).issues
        ↔ 60 < title.length) := by
  unfold analyze_title_meta
  dsimp only
  split_ifs <;> simp_all <;> omega

theorem analyze_title_meta_length_boundaries_witness :
    ("Title too short"
        ∈ (analyze_title_meta "abcdefghijklmnopqrstuvwxyz0123" "N/A" "u").issues
      ↔ ("abcdefghijklmnopqrstuvwxyz0123" : String).length < 30)
    ∧ ("Title too long"
        ∈ (analyze_title_meta "abcdefghijklmnopqrstuvwxyz0123" "N/A" "u").issues
      ↔ 60 < ("abcdefghijklmnopqrstuvwxyz0123" : String).length) :=
  analyze_title_meta_length_boundaries "abcdefghijklmnopqrstuvwxyz0123" "N/A" "u"
    (by decide) (by decide)

/-- C2: a page with 0 internal links, 0 H1 tags, a missing meta description,
a 1500-word body, and every other input issue-free (a present title of
length 30 to 60 without duplicate words, at least one other header so no
"No header tags found" issue, a URL without issues, no images without alt,
no keyword over-optimization) scores exactly 80 = 100 - 10 - 10, with no
internal-link bonus. -/
theorem score_missing_h1_missing_meta (title meta_desc url text : String)
    (h2t h3t : List String) (kd : List (String × Nat))
    (ht1 : title ≠ "") (ht2 : title ≠ "N/A")
    (hlen1 : 30 ≤ title.length) (hlen2 : title.length ≤ 60)
    (hdup : hasDuplicateWords title = false)
    (hmd : meta_desc = "" ∨ meta_desc = "N/A")
    (hh : 0 < h2t.length + h3t.length)
    (hurl : (analyze_url_structure url).issues = [])
    (hkd : kd = [] ∨ 100 * maxCounterValue kd ≤ 3 * 1500) :
    calculate_seo_score (analyze_title_meta title meta_desc url)
        (analyze_headers [] h2t h3t) (analyze_url_structure url)
        (analyze_content_quality 1500 kd text) 0 0 = 80 := by
  have htm : (analyze_title_meta title meta_desc url).issues
      = ["Missing meta description"] := by
    unfold analyze_title_meta
    dsimp only
    split_ifs <;> simp_all <;> omega
  have hhd : (analyze_headers [] h2t h3t).issues = ["Missing H1 tag"] := by
    unfold analyze_headers
    dsimp only
    split_ifs <;> simp_all
  have hca : (analyze_content_quality 1500 kd text).issues = [] := by
    unfold analyze_content_quality
    dsimp only
    rcases hkd with hkd | hkd <;> split_ifs <;> simp_all
    omega
  unfold calculate_seo_score
  rw [htm, hhd, hurl, hca]
  rfl

theorem score_missing_h1_missing_meta_witness :
    calculate_seo_score
        (analyze_title_meta "Proven Scoring Facts About The Audit" "N/A"
          "https://example.com/blog")
        (analyze_headers [] ["Overview"] [])
        (analyze_url_structure "https://example.com/blog")
        (analyze_content_quality 1500 [] "One sentence. Two more words here.") 0 0
      = 80 :=
  score_missing_h1_missing_meta "Proven Scoring Facts About The Audit" "N/A"
    "https://example.com/blog" "One sentence. Two more words here."
    ["Overview"] [] [] (by decide) (by decide) (by decide) (by decide)
    (by decide) (Or.inr (by decide)) (by decide) (by decide) (Or.inl rfl)

/-- C6 counterexample: the claim that the reported path depth equals the
number of non-empty path segments fails on a URL whose path has consecutive
interior slashes: for https://example.com/a//b the code reports depth 3
(the empty middle segment is counted) while the non-empty segments number 2. -/
theorem analyze_url_depth_counterexample :
    (analyze_url_structure "https://example.com/a//b").depth
      ≠ specNonEmptyDepth "https://example.com/a//b" := by
  decide

/-- C6 (amended): the depth reported by `analyze_url_structure` is the
number of pieces of the slash-split of the path stripped of leading and
trailing slashes — which counts empty pieces arising from consecutive
interior slashes — with depth 0 for an empty stripped path; when the split
has no empty piece (or the stripped path is empty) this equals the number
of non-empty segments, and the issue "URL too deep" is emitted exactly when
the reported depth exceeds 4. -/
theorem analyze_url_depth_amended (url : String) :
    ("URL too deep" ∈ (analyze_url_structure url).issues
        ↔ 4 < (analyze_url_structure url).depth)
    ∧ (("" : String) ∉ pySplitChar '/' (stripChar '/' (pyUrlPath url))
          ∨ stripChar '/' (pyUrlPath url) = ""
        → (analyze_url_structure url).depth = specNonEmptyDepth url) := by
  constructor
  · unfold analyze_url_structure
    dsimp only
    split_ifs <;> simp_all
  · intro h
    rcases h with h | h
    · have hne : stripChar '/' (pyUrlPath url) ≠ "" := by
        intro he
        rw [he] at h
        exact h (by decide)
      have hfil : (pySplitChar '/' (stripChar '/' (pyUrlPath url))).filter
            (fun seg => seg ≠ "")
          = pySplitChar '/' (stripChar '/' (pyUrlPath url)) := by
        apply List.filter_eq_self.mpr
        intro a ha
        simp only [ne_eq, decide_eq_true_eq]
        intro he
        exact h (he ▸ ha)
      unfold analyze_url_structure specNonEmptyDepth
      dsimp only
      rw [if_pos hne, hfil]
    · unfold analyze_url_structure specNonEmptyDepth
      dsimp only
      simp only [h]
      decide

theorem analyze_url_depth_amended_witness :
    ("URL too deep" ∈ (analyze_url_structure "https://example.com/a/b/c/d/e").issues)
    ∧ (analyze_url_structure "https://example.com/a/b/c/d/e").depth
        = specNonEmptyDepth "https://example.com/a/b/c/d/e" :=
  ⟨((analyze_url_depth_amended "https://example.com/a/b/c/d/e").1).mpr (by decide),
   (analyze_url_depth_amended "https://example.com/a/b/c/d/e").2 (Or.inl (by decide))⟩

/-- Characters matched into regex tokens are never digits: the token class
is purely alphabetic. -/
theorem isAsciiAlpha_not_digit {c : Char} (h : isAsciiAlpha c = true) :
    isAsciiDigit c = false := by
  unfold isAsciiAlpha at h
  unfold isAsciiDigit
  rw [Bool.eq_false_iff]
  intro hd
  simp only [Bool.or_eq_true, Bool.and_eq_true, decide_eq_true_eq] at h hd
  omega

/-- C10: the purely-numeric-token exclusion of `get_keywords` is vacuous:
since the token regex matches only alphabetic runs, the extractor with the
digit filter and the one without it return the same word-count mapping for
every text and length bounds. -/
theorem get_keywords_digit_filter_vacuous (text : String)
    (min_length max_length : Nat) :
    get_keywords text min_length max_length
      = get_keywords_without_digit_filter text min_length max_length := by
  unfold get_keywords get_keywords_without_digit_filter
  congr 1
  apply List.filter_congr
  intro w hw
  have hd : pyIsDigit w = false := by
    unfold regexTokens at hw
    obtain ⟨r, hrin, rfl⟩ := List.mem_map.mp hw
    have hall : r.all isAsciiAlpha = true := by
      have hpred := (List.mem_filter.mp hrin).2
      simp only [Bool.and_eq_true] at hpred
      exact hpred.1.1
    unfold pyIsDigit
    cases r with
    | nil => rfl
    | cons c cs =>
      have hc : isAsciiAlpha c = true := by
        rw [List.all_cons, Bool.and_eq_true] at hall
        exact hall.1
      have hcd : isAsciiDigit c = false := isAsciiAlpha_not_digit hc
      simp [List.all_cons, hcd]
  simp [hd]

theorem counterAdd_map_fst (acc : List (String × Nat)) (k : String) (c : Nat) :
    (counterAdd acc k c).map Prod.fst
      = if k ∈ acc.map Prod.fst then acc.map Prod.fst
        else acc.map Prod.fst ++ [k] := by
  induction acc with
  | nil => simp [counterAdd]
  | cons q rest ih =>
    by_cases hq : q.1 = k
    · simp [counterAdd, hq]
    · simp only [counterAdd, hq, if_false, List.map_cons, ih]
      by_cases hm : k ∈ rest.map Prod.fst
      · simp [hm, List.mem_cons]
      · simp [hm, List.mem_cons, Ne.symm hq]

theorem counterAdd_map_value (acc : List (String × Nat)) (k : String) (c : Nat)
    (g : String → Nat) (hnd : (acc.map Prod.fst).Nodup)
    (hmem : k ∈ acc.map Prod.fst) :
    (counterAdd acc k c).map (fun q => (q.1, q.2 + g q.1))
      = acc.map (fun q => (q.1, q.2 + ((if k = q.1 then c else 0) + g q.1))) := by
  induction acc with
  | nil => simp at hmem
  | cons q rest ih =>
    rw [List.map_cons] at hnd
    by_cases hq : q.1 = k
    · subst hq
      have htail : rest.map (fun p => (p.1, p.2 + g p.1))
          = rest.map (fun p => (p.1, p.2 + ((if q.1 = p.1 then c else 0) + g p.1))) := by
        apply List.map_congr_left
        intro p hp
        have hne : q.1 ≠ p.1 := by
          intro he
          exact (List.nodup_cons.mp hnd).1 (he ▸ List.mem_map_of_mem Prod.fst hp)
        simp [hne]
      have hstep : counterAdd (q :: rest) q.1 c = (q.1, q.2 + c) :: rest := by
        simp [counterAdd]
      rw [hstep, List.map_cons, List.map_cons, if_pos rfl, Nat.add_assoc]
      exact congrArg _ htail
    · have hmem' : k ∈ rest.map Prod.fst := by
        rw [List.map_cons] at hmem
        rcases List.mem_cons.mp hmem with h | h
        · exact absurd h.symm hq
        · exact h
      have hnd' : (rest.map Prod.fst).Nodup := (List.nodup_cons.mp hnd).2
      simp only [counterAdd, hq, if_false, List.map_cons, ih hnd' hmem']
      have hz : (if k = q.1 then c else 0) = 0 := if_neg (fun h => hq h.symm)
      rw [hz]
      simp

theorem counterAdd_not_mem (acc : List (String × Nat)) (k : String) (c : Nat)
    (h : k ∉ acc.map Prod.fst) : counterAdd acc k c = acc ++ [(k, c)] := by
  induction acc with
  | nil => rfl
  | cons q rest ih =>
    have hq : ¬ (q.1 = k) := fun he => h (by simp [he])
    have h' : k ∉ rest.map Prod.fst := fun hm => h (by simp [hm])
    simp [counterAdd, hq, ih h']

theorem firstKeys_congr {s₁ s₂ : List String} (l : List (String × Nat))
    (h : ∀ x, x ∈ s₁ ↔ x ∈ s₂) : firstKeys s₁ l = firstKeys s₂ l := by
  induction l generalizing s₁ s₂ with
  | nil => rfl
  | cons p rest ih =>
    by_cases hm : p.1 ∈ s₁
    · rw [firstKeys, firstKeys, if_pos hm, if_pos ((h p.1).mp hm)]
      exact ih h
    · rw [firstKeys, firstKeys, if_neg hm, if_neg (fun hx => hm ((h p.1).mpr hx))]
      congr 1
      apply ih
      intro x
      simp [List.mem_cons, h x]

theorem mem_firstKeys_not_seen {k : String} :
    ∀ (l : List (String × Nat)) (seen : List String),
      k ∈ firstKeys seen l → k ∉ seen := by
  intro l
  induction l with
  | nil =>
    intro seen h
    simp [firstKeys] at h
  | cons p rest ih =>
    intro seen h
    rw [firstKeys] at h
    by_cases hm : p.1 ∈ seen
    · rw [if_pos hm] at h
      exact ih seen h
    · rw [if_neg hm] at h
      rcases List.mem_cons.mp h with rfl | h2
      · exact hm
      · intro hk
        exact ih (p.1 :: seen) h2 (List.mem_cons_of_mem _ hk)

theorem counterFold_spec : ∀ (l acc : List (String × Nat)),
    (acc.map Prod.fst).Nodup →
    counterFold acc l
      = acc.map (fun q => (q.1, q.2 + contrib q.1 l))
        ++ (firstKeys (acc.map Prod.fst) l).map (fun k => (k, contrib k l)) := by
  intro l
  induction l with
  | nil =>
    intro acc hnd
    simp [counterFold, contrib, firstKeys]
  | cons p rest ih =>
    intro acc hnd
    rw [counterFold]
    by_cases hm : p.1 ∈ acc.map Prod.fst
    · have hnd' : ((counterAdd acc p.1 p.2).map Prod.fst).Nodup := by
        rw [counterAdd_map_fst, if_pos hm]
        exact hnd
      rw [ih _ hnd', counterAdd_map_fst, if_pos hm,
        counterAdd_map_value acc p.1 p.2 (fun j => contrib j rest) hnd hm]
      have hfk : firstKeys (acc.map Prod.fst) (p :: rest)
          = firstKeys (acc.map Prod.fst) rest := by
        rw [firstKeys, if_pos hm]
      rw [hfk]
      congr 1
      apply List.map_congr_left
      intro k hk
      have hne : ¬ (p.1 = k) := by
        intro he
        exact mem_firstKeys_not_seen rest _ hk (he ▸ hm)
      simp [contrib, hne]
    · have hacc : counterAdd acc p.1 p.2 = acc ++ [(p.1, p.2)] :=
        counterAdd_not_mem _ _ _ hm
      have hkeys : (acc ++ [(p.1, p.2)]).map Prod.fst = acc.map Prod.fst ++ [p.1] := by
        simp
      have hnd' : (((acc ++ [(p.1, p.2)]).map Prod.fst)).Nodup := by
        rw [hkeys]
        simp [List.nodup_append, hnd, hm]
      rw [hacc, ih _ hnd', hkeys]
      have hfk : firstKeys (acc.map Prod.fst ++ [p.1]) rest
          = firstKeys (p.1 :: acc.map Prod.fst) rest := by
        apply firstKeys_congr
        intro x
        simp [List.mem_cons, or_comm]
      have hfk2 : firstKeys (acc.map Prod.fst) (p :: rest)
          = p.1 :: firstKeys (p.1 :: acc.map Prod.fst) rest := by
        rw [firstKeys, if_neg hm]
      rw [hfk, hfk2]
      have hmap1 : acc.map (fun q => (q.1, q.2 + contrib q.1 (p :: rest)))
          = acc.map (fun q => (q.1, q.2 + contrib q.1 rest)) := by
        apply List.map_congr_left
        intro q hq
        have hne : ¬ (p.1 = q.1) := by
          intro he
          exact hm (he ▸ List.mem_map_of_mem Prod.fst hq)
        simp [contrib, hne]
      have hmap2 : (firstKeys (p.1 :: acc.map Prod.fst) rest).map
            (fun k => (k, contrib k (p :: rest)))
          = (firstKeys (p.1 :: acc.map Prod.fst) rest).map
            (fun k => (k, contrib k rest)) := by
        apply List.map_congr_left
        intro k hk
        have hne : ¬ (p.1 = k) := by
          intro he
          exact mem_firstKeys_not_seen rest _ hk (by simp [he])
        simp [contrib, hne]
      rw [hmap1]
      simp only [List.map_cons, hmap2]
      simp [contrib, List.map_append, List.append_assoc]

theorem counterOfList_eq (l : List (String × Nat)) :
    counterOfList l = (firstKeys [] l).map (fun k => (k, contrib k l)) := by
  have h := counterFold_spec l [] (by simp)
  simpa [counterOfList] using h

theorem filter_map_pair_fst (xs : List String) (f : String → Nat) :
    (((xs.map (fun k => (k, f k))).filter (fun p => p.2 == 1)).map Prod.fst)
      = xs.filter (fun k => f k == 1) := by
  induction xs with
  | nil => rfl
  | cons x rest ih =>
    simp only [List.map_cons, List.filter_cons]
    cases hfx : (f x == 1) <;> simp [hfx, ih]

theorem contrib_append (k : String) (l₁ l₂ : List (String × Nat)) :
    contrib k (l₁ ++ l₂) = contrib k l₁ + contrib k l₂ := by
  induction l₁ with
  | nil => simp [contrib]
  | cons p rest ih =>
    simp only [List.cons_append, contrib, List.append_eq, ih, Nat.add_assoc]

theorem contrib_concatAll (k : String) (pages : List (List (String × Nat))) :
    contrib k (concatAll pages) = specTotalCount pages k := by
  induction pages with
  | nil => rfl
  | cons pg rest ih =>
    simp [concatAll, specTotalCount, contrib_append, ih]

/-- C5: the keyword-opportunity list equals the specification's description
of it — the keywords whose summed count over all pages' top-keyword lists is
exactly 1, in first-encounter order, capped at 10 — and on the two-page
example with counts seo:5 and seo:3, widget:1 it reports widget and not
seo. -/
theorem keyword_opportunities_characterisation :
    (∀ pages, keyword_opportunities pages = specOpportunities pages)
    ∧ keyword_opportunities [[("seo", 5)], [("seo", 3), ("widget", 1)]] = ["widget"]
    ∧ "seo" ∉ keyword_opportunities [[("seo", 5)], [("seo", 3), ("widget", 1)]] := by
  refine ⟨?_, by decide, by decide⟩
  intro pages
  unfold keyword_opportunities all_keywords specOpportunities
  rw [counterOfList_eq, filter_map_pair_fst]
  congr 1
  apply List.filter_congr
  intro k hk
  rw [contrib_concatAll]

end SeoAudit
